import Mathlib

/-!
Shallow embedding of `langchain/chains/retrieval_qa/base.py`.

The module implements retrieval-augmented question answering.  The code
under verification is the class hierarchy `BaseRetrievalQA` (orchestration
in `_call`), `RetrievalQA` (delegates to a retriever) and `VectorDBQA`
(delegates to a vector store with a `similarity` or `mmr` search mode).

External collaborators (the vector store, the retriever, the LLM combine
chain) are modelled as functions that thread an abstract world state `σ`;
instantiating `σ` with a call log or a call counter makes the number and
the arguments of backend invocations observable, which is how the routing
and the no-call-on-error claims are stated.
-/

set_option autoImplicit false

namespace RetrievalQASpec

/-- A retrieved document: a text body plus free-form metadata
(`langchain.schema.Document`). -/
structure Document where
  page_content : String
  metadata : List (String × String)
deriving DecidableEq, Repr

/-- Keyword-argument mapping with opaque string values (models `Dict[str, Any]`
where the values are never inspected by this module). -/
abbrev Kwargs := List (String × String)

/-- Errors surfaced by the embedded code.  `validationError` models a pydantic
construction-time failure (the spec's `ConfigurationError`), `keyError` models
a missing dictionary key at call time (the spec's `MissingInput`), and
`valueError` models a `ValueError` raised at call time (the spec's
`InvalidConfiguration`). -/
inductive QAError where
  | validationError : String → QAError
  | keyError : String → QAError
  | valueError : String → QAError
deriving DecidableEq, Repr

/-- Values stored in the result mapping of `_call`: the answer string, or the
list of source documents. -/
inductive Value where
  | str : String → Value
  | docs : List Document → Value
deriving DecidableEq, Repr

/-- The result mapping of `_call` (`Dict[str, Any]`), in insertion order. -/
abbrev Output := List (String × Value)

/-- Python dictionary lookup `d[key]` as an optional value over an ordered
association list. -/
def dictGet (inputs : List (String × String)) (key : String) : Option String :=
  (inputs.find? (fun p => p.1 == key)).map (fun p => p.2)

/-- The external vector store collaborator: `similarity_search` and
`max_marginal_relevance_search`, both taking `(question, k, **search_kwargs)`
and threading the world state `σ`. -/
structure VectorStore (σ : Type) where
  similarity_search : String → Int → Kwargs → σ → List Document × σ
  max_marginal_relevance_search : String → Int → Kwargs → σ → List Document × σ

/-- The external retriever collaborator (`BaseRetriever`): its
get-relevant-documents capability, called `get_relevant_texts` in this
revision of the code, takes only the question. -/
structure Retriever (σ : Type) where
  get_relevant_texts : String → σ → List Document × σ

/-- The combine-documents collaborator (`BaseCombineDocumentsChain`):
`combine_docs(docs, question)` returns `(answer, extra)`. -/
structure CombineDocumentsChain (σ : Type) where
  combine_docs : List Document → String → σ → (String × Kwargs) × σ

/-- Shared fields of `BaseRetrievalQA`. -/
structure BaseRetrievalQA (σ : Type) where
  combine_documents_chain : CombineDocumentsChain σ
  input_key : String := "query"
  output_key : String := "result"
  return_source_documents : Bool := false

/-- `BaseRetrievalQA.output_keys`: `[output_key]`, extended with
`"source_documents"` when `return_source_documents` is set. -/
def BaseRetrievalQA.output_keys {σ : Type} (b : BaseRetrievalQA σ) : List String :=
  if b.return_source_documents then [b.output_key] ++ ["source_documents"]
  else [b.output_key]

/-- `BaseRetrievalQA._call`, parameterised over the abstract `_get_docs` of the
concrete subtype.  Mirrors the source line by line: read the question from the
input mapping (a missing key raises `KeyError` before any collaborator runs),
fetch the documents, combine them into an answer, then shape the result
mapping according to `return_source_documents`. -/
def BaseRetrievalQA.callM {σ : Type} (b : BaseRetrievalQA σ)
    (get_docs : String → σ → Except QAError (List Document) × σ)
    (inputs : List (String × String)) (s : σ) : Except QAError Output × σ :=
  match dictGet inputs b.input_key with
  | none => (.error (.keyError b.input_key), s)
  | some question =>
    match get_docs question s with
    | (.error e, s₁) => (.error e, s₁)
    | (.ok docs, s₁) =>
      let r := b.combine_documents_chain.combine_docs docs question s₁
      let answer := r.1.1
      if b.return_source_documents then
        (.ok [(b.output_key, .str answer), ("source_documents", .docs docs)], r.2)
      else
        (.ok [(b.output_key, .str answer)], r.2)

/-- `RetrievalQA`: the subtype holding an external retriever. -/
structure RetrievalQA (σ : Type) extends BaseRetrievalQA σ where
  retriever : Retriever σ

/-- `RetrievalQA._get_docs`: delegate to the retriever with only the
question. -/
def RetrievalQA.get_docs {σ : Type} (c : RetrievalQA σ) (question : String)
    (s : σ) : Except QAError (List Document) × σ :=
  let r := c.retriever.get_relevant_texts question s
  (.ok r.1, r.2)

/-- `RetrievalQA._call`. -/
def RetrievalQA.call {σ : Type} (c : RetrievalQA σ)
    (inputs : List (String × String)) (s : σ) : Except QAError Output × σ :=
  c.toBaseRetrievalQA.callM c.get_docs inputs s

/-- `VectorDBQA`: the subtype holding a vector store plus its retrieval
configuration (`k`, `search_type`, `search_kwargs`). -/
structure VectorDBQA (σ : Type) extends BaseRetrievalQA σ where
  vectorstore : VectorStore σ
  k : Int := 4
  search_type : String := "similarity"
  search_kwargs : Kwargs := []

/-- `VectorDBQA._get_docs`: route on `search_type` to the matching vector
store capability with `(question, k, **search_kwargs)`; any other value
raises `ValueError` citing the offending mode. -/
def VectorDBQA.get_docs {σ : Type} (c : VectorDBQA σ) (question : String)
    (s : σ) : Except QAError (List Document) × σ :=
  if c.search_type = "similarity" then
    let r := c.vectorstore.similarity_search question c.k c.search_kwargs s
    (.ok r.1, r.2)
  else if c.search_type = "mmr" then
    let r := c.vectorstore.max_marginal_relevance_search question c.k c.search_kwargs s
    (.ok r.1, r.2)
  else
    (.error (.valueError ("search_type of " ++ c.search_type ++ " not allowed.")), s)

/-- `VectorDBQA._call`. -/
def VectorDBQA.call {σ : Type} (c : VectorDBQA σ)
    (inputs : List (String × String)) (s : σ) : Except QAError Output × σ :=
  c.toBaseRetrievalQA.callM c.get_docs inputs s

/-- A keyword-argument value handed to a pydantic constructor. -/
inductive FieldVal (σ : Type) where
  | vsV : VectorStore σ → FieldVal σ
  | retV : Retriever σ → FieldVal σ
  | intV : Int → FieldVal σ
  | strV : String → FieldVal σ
  | boolV : Bool → FieldVal σ
  | dictV : Kwargs → FieldVal σ

/-- Lookup of a constructor keyword argument by name. -/
def kwFind {σ : Type} (kwargs : List (String × FieldVal σ)) (name : String) :
    Option (FieldVal σ) :=
  (kwargs.find? (fun p => p.1 == name)).map (fun p => p.2)

/-- Field names `VectorDBQA(...)` accepts beyond the explicitly passed
`combine_documents_chain` (its own declared fields plus the inherited ones
visible in this module). -/
def VectorDBQA.allowed_fields : List String :=
  ["input_key", "output_key", "return_source_documents",
   "vectorstore", "k", "search_type", "search_kwargs"]

/-- Modelled from the spec: pydantic construction of `VectorDBQA` (the
enforcement machinery lives in the pydantic library, outside src).  The class
declares `Extra.forbid`, so a keyword argument whose name is not a declared
field fails construction; `vectorstore` is required; defaults are `k = 4`,
`search_type = "similarity"`, empty `search_kwargs`; finally the
`validate_search_type` root validator (in src) rejects any `search_type`
other than `"similarity"` or `"mmr"`. -/
def VectorDBQA.construct {σ : Type} (combine_documents_chain : CombineDocumentsChain σ)
    (kwargs : List (String × FieldVal σ)) : Except QAError (VectorDBQA σ) :=
  match kwargs.find? (fun p => !(VectorDBQA.allowed_fields.contains p.1)) with
  | some p => .error (.validationError ("extra fields not permitted: " ++ p.1))
  | none =>
    match kwFind kwargs "vectorstore" with
    | some (.vsV v) =>
      let k : Int := match kwFind kwargs "k" with
        | some (.intV n) => n
        | _ => 4
      let search_type : String := match kwFind kwargs "search_type" with
        | some (.strV t) => t
        | _ => "similarity"
      let search_kwargs : Kwargs := match kwFind kwargs "search_kwargs" with
        | some (.dictV d) => d
        | _ => []
      let inK : String := match kwFind kwargs "input_key" with
        | some (.strV t) => t
        | _ => "query"
      let outK : String := match kwFind kwargs "output_key" with
        | some (.strV t) => t
        | _ => "result"
      let rsd : Bool := match kwFind kwargs "return_source_documents" with
        | some (.boolV b) => b
        | _ => false
      if search_type = "similarity" ∨ search_type = "mmr" then
        .ok { combine_documents_chain := combine_documents_chain,
              input_key := inK, output_key := outK,
              return_source_documents := rsd, vectorstore := v, k := k,
              search_type := search_type, search_kwargs := search_kwargs }
      else
        .error (.validationError ("search_type of " ++ search_type ++ " not allowed."))
    | _ => .error (.validationError "vectorstore: field required")

/-- Modelled from the spec: the single-pass document assembly of the
`StuffDocumentsChain` built by `from_llm` (that class is outside src).  Each
document's text body is rendered through the document prompt
`"Context:\n{page_content}"` declared in `from_llm`, in the order received,
joined by the fixed double-newline separator; the empty sequence yields the
empty string. -/
def stuff_context : List Document → String
  | [] => ""
  | [d] => "Context:\n" ++ d.page_content
  | d :: d₂ :: ds => "Context:\n" ++ d.page_content ++ "\n\n" ++ stuff_context (d₂ :: ds)

/-- Modelled from the spec: the combine chain built by `from_llm` — assemble
the grounding context with `stuff_context` and invoke the LLM chain once with
the context and the question (the prompt template and model are abstracted as
`llm_chain`). -/
def stuffChain {σ : Type} (llm_chain : String → String → σ → String × σ) :
    CombineDocumentsChain σ :=
  ⟨fun docs question s =>
    let r := llm_chain (stuff_context docs) question s
    ((r.1, []), r.2)⟩

/-- `VectorDBQA.from_llm`: build the stuff combine chain over the given LLM
chain and construct the subtype with the forwarded keyword arguments. -/
def VectorDBQA.from_llm {σ : Type} (llm_chain : String → String → σ → String × σ)
    (kwargs : List (String × FieldVal σ)) : Except QAError (VectorDBQA σ) :=
  VectorDBQA.construct (stuffChain llm_chain) kwargs

/-- `VectorDBQA.from_chain_type`: build the combine chain from the external
`load_qa_chain` loader (abstracted as `loader`) and construct the subtype with
the forwarded keyword arguments. -/
def VectorDBQA.from_chain_type {σ : Type}
    (loader : String → Kwargs → CombineDocumentsChain σ) (chain_type : String)
    (chain_type_kwargs : Kwargs) (kwargs : List (String × FieldVal σ)) :
    Except QAError (VectorDBQA σ) :=
  VectorDBQA.construct (loader chain_type chain_type_kwargs) kwargs

/-! Instrumented collaborators used to observe backend invocations. -/

/-- One recorded vector store invocation: which capability, with which
arguments. -/
inductive VSCall where
  | simCall : String → Int → Kwargs → VSCall
  | mmrCall : String → Int → Kwargs → VSCall
deriving DecidableEq, Repr

/-- A vector store that records every invocation (capability and arguments)
in the world state while answering from the pure backends `f` and `g`. -/
def loggingStore (f g : String → Int → Kwargs → List Document) :
    VectorStore (List VSCall) :=
  ⟨fun q k kw s => (f q k kw, s ++ [VSCall.simCall q k kw]),
   fun q k kw s => (g q k kw, s ++ [VSCall.mmrCall q k kw])⟩

/-- A retriever that records the question of every invocation. -/
def loggingRetriever (f : String → List Document) : Retriever (List String) :=
  ⟨fun q s => (f q, s ++ [q])⟩

/-- A `_get_docs` stub that counts its invocations in the first component of
the state. -/
def countingGetDocs (f : String → List Document) :
    String → Nat × Nat → Except QAError (List Document) × (Nat × Nat) :=
  fun q s => (.ok (f q), (s.1 + 1, s.2))

/-- A combine chain stub that counts its invocations in the second component
of the state. -/
def countingCombine (g : List Document → String → String) :
    CombineDocumentsChain (Nat × Nat) :=
  ⟨fun docs q s => ((g docs q, []), (s.1, s.2 + 1))⟩

/-- A vector store whose backends return no documents and leave the state
unchanged. -/
def emptyStore (σ : Type) : VectorStore σ :=
  ⟨fun _ _ _ s => ([], s), fun _ _ _ s => ([], s)⟩

/-- A trivial combine chain over the unit state. -/
def unitCombine : CombineDocumentsChain Unit :=
  ⟨fun _ _ s => (("", []), s)⟩

/-- A sample document. -/
def docA : Document := ⟨"Paris is the capital of France.", []⟩

/-! Theorems settling the claims. -/

/-- C1.  A `VectorDBQA` with `search_type = "similarity"` makes exactly one
backend call, to `similarity_search`, with arguments
`(question, k, search_kwargs)`, and one with `search_type = "mmr"` makes
exactly one backend call, to `max_marginal_relevance_search`, with the same
arguments; in both cases `_get_docs` returns the backend's document list
unchanged, in the backend's order.  Stated over a logging vector store whose
final log exhibits the exact sequence of invocations. -/
theorem c1_search_mode_routing
    (f g : String → Int → Kwargs → List Document)
    (cc : CombineDocumentsChain (List VSCall)) (ik ok : String) (rsd : Bool)
    (k : Int) (kw : Kwargs) (q : String) :
    VectorDBQA.get_docs ⟨⟨cc, ik, ok, rsd⟩, loggingStore f g, k, "similarity", kw⟩ q []
      = (.ok (f q k kw), [VSCall.simCall q k kw])
    ∧ VectorDBQA.get_docs ⟨⟨cc, ik, ok, rsd⟩, loggingStore f g, k, "mmr", kw⟩ q []
      = (.ok (g q k kw), [VSCall.mmrCall q k kw]) :=
  ⟨rfl, rfl⟩

/-- C4.  `RetrievalQA._get_docs` delegates unconditionally to the retriever's
get-relevant-documents capability, passing only the question, and returns the
resulting sequence unchanged.  Stated over a logging retriever whose final log
shows exactly one invocation carrying exactly the question. -/
theorem c4_direct_retriever_delegation
    (f : String → List Document)
    (cc : CombineDocumentsChain (List String)) (ik ok : String) (rsd : Bool)
    (q : String) :
    RetrievalQA.get_docs ⟨⟨cc, ik, ok, rsd⟩, loggingRetriever f⟩ q []
      = (.ok (f q), [q]) :=
  rfl

/-- C3.  Constructing a `VectorDBQA` with `search_type = "bogus"` fails with a
construction-time `ConfigurationError`; constructing it with either recognized
value succeeds.  The failure is uniform in the vector store (the result is the
same for every `vs`), so no fetch can have been made. -/
theorem c3_eager_search_type_validation {σ : Type} (vs : VectorStore σ)
    (cc : CombineDocumentsChain σ) :
    VectorDBQA.construct cc [("vectorstore", .vsV vs), ("search_type", .strV "bogus")]
      = .error (.validationError "search_type of bogus not allowed.")
    ∧ (VectorDBQA.construct cc
        [("vectorstore", .vsV vs), ("search_type", .strV "similarity")]).isOk = true
    ∧ (VectorDBQA.construct cc
        [("vectorstore", .vsV vs), ("search_type", .strV "mmr")]).isOk = true :=
  ⟨rfl, rfl, rfl⟩

/-- C7.  If `search_type` holds any value other than the two recognized ones
at call time, `_get_docs` fails with a `ValueError` whose message cites the
offending mode string; for the two recognized values this error branch is
never taken (the result is an `.ok`). -/
theorem c7_defensive_branch {σ : Type} (c : VectorDBQA σ) (q : String) (s : σ)
    (h₁ : c.search_type ≠ "similarity") (h₂ : c.search_type ≠ "mmr") :
    VectorDBQA.get_docs c q s
      = (.error (.valueError ("search_type of " ++ c.search_type ++ " not allowed.")), s)
    ∧ ∀ (c' : VectorDBQA σ) (q' : String) (s' : σ),
        (c'.search_type = "similarity" ∨ c'.search_type = "mmr") →
        ∃ docs t, VectorDBQA.get_docs c' q' s' = (.ok docs, t) := by
  constructor
  · simp [VectorDBQA.get_docs, h₁, h₂]
  · intro c' q' s' h
    rcases h with h | h <;> simp [VectorDBQA.get_docs, h]

/-- C7 witness: a concrete `VectorDBQA` with `search_type = "bogus"`. -/
theorem c7_defensive_branch_witness :
    VectorDBQA.get_docs
        ⟨⟨unitCombine, "query", "result", false⟩, emptyStore Unit, 4, "bogus", []⟩
        "hi" ()
      = (.error (.valueError ("search_type of " ++ "bogus" ++ " not allowed.")), ())
    ∧ ∀ (c' : VectorDBQA Unit) (q' : String) (s' : Unit),
        (c'.search_type = "similarity" ∨ c'.search_type = "mmr") →
        ∃ docs t, VectorDBQA.get_docs c' q' s' = (.ok docs, t) :=
  c7_defensive_branch
    ⟨⟨unitCombine, "query", "result", false⟩, emptyStore Unit, 4, "bogus", []⟩
    "hi" () (by decide) (by decide)

/-- C10.  `k` is never checked for positivity: for every integer `k`
(zero and negatives included) construction succeeds and stores that `k`;
omitting `k` defaults it to `4`; and `_get_docs` forwards the stored `k`
unchanged to the backend search call. -/
theorem c10_k_unchecked {σ : Type} (vs : VectorStore σ)
    (cc : CombineDocumentsChain σ) (k : Int) (q : String) (s : σ) :
    (∃ c, VectorDBQA.construct cc [("vectorstore", .vsV vs), ("k", .intV k)] = .ok c
          ∧ c.k = k)
    ∧ (∃ c, VectorDBQA.construct cc [("vectorstore", .vsV vs)] = .ok c ∧ c.k = 4)
    ∧ VectorDBQA.get_docs ⟨⟨cc, "query", "result", false⟩, vs, k, "similarity", []⟩ q s
      = (.ok (vs.similarity_search q k [] s).1, (vs.similarity_search q k [] s).2) :=
  ⟨⟨_, rfl, rfl⟩, ⟨_, rfl, rfl⟩, rfl⟩

/-- C8.  In a pipeline built via `from_llm`, the combine chain hands the LLM
chain the context assembled by `stuff_context`; that context lists each
document's text body prefixed by the literal header followed by a line break,
in the order received; the empty document sequence yields the empty context;
and with an empty-result backend the full call still succeeds, invoking the
LLM chain with the empty context. -/
theorem c8_from_llm_context (σ : Type)
    (llm_chain : String → String → σ → String × σ)
    (docs : List Document) (q : String) (s : σ) (d : Document) (ds : List Document) :
    (stuffChain llm_chain).combine_docs docs q s
      = (((llm_chain (stuff_context docs) q s).1, []),
         (llm_chain (stuff_context docs) q s).2)
    ∧ stuff_context (d :: ds)
      = (match ds with
         | [] => "Context:\n" ++ d.page_content
         | _ :: _ => "Context:\n" ++ d.page_content ++ "\n\n" ++ stuff_context ds)
    ∧ stuff_context [] = ""
    ∧ (∃ c, VectorDBQA.from_llm llm_chain [("vectorstore", .vsV (emptyStore σ))] = .ok c
          ∧ c.call [("query", q)] s
            = (.ok [("result", .str (llm_chain "" q s).1)], (llm_chain "" q s).2)) := by
  refine ⟨rfl, ?_, rfl, _, rfl, rfl⟩
  cases ds <;> rfl

/-- When the pydantic extra-field scan finds an unknown keyword argument,
construction reports it. -/
theorem construct_rejects_found_extra {σ : Type} (cc : CombineDocumentsChain σ)
    (kwargs : List (String × FieldVal σ)) (r : String × FieldVal σ)
    (hr : kwargs.find? (fun p => !(VectorDBQA.allowed_fields.contains p.1)) = some r) :
    VectorDBQA.construct cc kwargs
      = .error (.validationError ("extra fields not permitted: " ++ r.1)) := by
  unfold VectorDBQA.construct
  rw [hr]

/-- C6.  When the keyword arguments forwarded by `from_llm` or
`from_chain_type` contain a field that is not part of `VectorDBQA`'s declared
schema, construction fails with a construction-time `ConfigurationError`;
unknown fields are rejected, never silently ignored. -/
theorem c6_extra_fields_forbidden {σ : Type}
    (llm_chain : String → String → σ → String × σ)
    (loader : String → Kwargs → CombineDocumentsChain σ)
    (chain_type : String) (chain_type_kwargs : Kwargs)
    (kwargs : List (String × FieldVal σ)) (p : String × FieldVal σ)
    (hp : p ∈ kwargs) (hbad : VectorDBQA.allowed_fields.contains p.1 = false) :
    (∃ msg, VectorDBQA.from_llm llm_chain kwargs = .error (.validationError msg))
    ∧ (∃ msg, VectorDBQA.from_chain_type loader chain_type chain_type_kwargs kwargs
        = .error (.validationError msg)) := by
  have hfind : ∃ r, kwargs.find? (fun p => !(VectorDBQA.allowed_fields.contains p.1))
      = some r := by
    have hs : (kwargs.find? (fun p => !(VectorDBQA.allowed_fields.contains p.1))).isSome := by
      rw [List.find?_isSome]
      exact ⟨p, hp, by simpa using hbad⟩
    exact Option.isSome_iff_exists.mp hs
  obtain ⟨r, hr⟩ := hfind
  exact ⟨⟨_, construct_rejects_found_extra (stuffChain llm_chain) kwargs r hr⟩,
         ⟨_, construct_rejects_found_extra (loader chain_type chain_type_kwargs) kwargs r hr⟩⟩

/-- C6 witness: a concrete unknown field `"bogus_field"`. -/
theorem c6_extra_fields_forbidden_witness :
    ("bogus_field", FieldVal.strV (σ := Unit) "x")
      ∈ [("vectorstore", FieldVal.vsV (emptyStore Unit)), ("bogus_field", .strV "x")]
    ∧ VectorDBQA.allowed_fields.contains "bogus_field" = false
    ∧ ((∃ msg, VectorDBQA.from_llm (σ := Unit) (fun _ _ s => ("", s))
          [("vectorstore", .vsV (emptyStore Unit)), ("bogus_field", .strV "x")]
          = .error (.validationError msg))
      ∧ (∃ msg, VectorDBQA.from_chain_type (fun _ _ => unitCombine) "stuff" []
          [("vectorstore", .vsV (emptyStore Unit)), ("bogus_field", .strV "x")]
          = .error (.validationError msg))) :=
  ⟨by simp, by decide,
   c6_extra_fields_forbidden (fun _ _ s => ("", s)) (fun _ _ => unitCombine) "stuff" []
     [("vectorstore", .vsV (emptyStore Unit)), ("bogus_field", .strV "x")]
     ("bogus_field", .strV "x") (by simp) (by decide)⟩

/-- C2.  When `_call` completes, the result mapping holds exactly the answer
key when `return_source_documents` is false, and exactly the answer key plus
`"source_documents"` when it is true, the latter bound to the very document
sequence the retrieval step produced, element for element and in order. -/
theorem c2_result_shape {σ : Type} (b : BaseRetrievalQA σ)
    (gd : String → σ → Except QAError (List Document) × σ)
    (inputs : List (String × String)) (q : String) (docs : List Document) (s s₁ : σ)
    (hq : dictGet inputs b.input_key = some q)
    (hd : gd q s = (.ok docs, s₁)) :
    BaseRetrievalQA.callM b gd inputs s
      = (.ok (if b.return_source_documents then
                [(b.output_key,
                  Value.str (b.combine_documents_chain.combine_docs docs q s₁).1.1),
                 ("source_documents", Value.docs docs)]
              else
                [(b.output_key,
                  Value.str (b.combine_documents_chain.combine_docs docs q s₁).1.1)]),
         (b.combine_documents_chain.combine_docs docs q s₁).2) := by
  simp only [BaseRetrievalQA.callM, hq, hd]
  cases hr : b.return_source_documents <;> simp [hr]

/-- C2 witness: a pipeline with `return_source_documents = true` over a stub
retrieval step returning `[docA]`. -/
theorem c2_result_shape_witness :
    dictGet [("query", "hi")] "query" = some "hi"
    ∧ (fun (_ : String) (s : Unit) =>
        ((Except.ok [docA] : Except QAError (List Document)), s)) "hi" ()
      = (.ok [docA], ())
    ∧ BaseRetrievalQA.callM ⟨unitCombine, "query", "result", true⟩
        (fun _ s => (.ok [docA], s)) [("query", "hi")] ()
      = (.ok [("result", Value.str ""), ("source_documents", Value.docs [docA])], ()) :=
  ⟨rfl, rfl,
   c2_result_shape ⟨unitCombine, "query", "result", true⟩
     (fun _ s => (.ok [docA], s)) [("query", "hi")] "hi" [docA] () () rfl rfl⟩

/-- C5.  When the input mapping lacks the configured input key, `_call` fails
with the missing-input error and performs zero retrieval and zero synthesis
invocations: over counting stub collaborators the call counters stay at
`(0, 0)`. -/
theorem c5_missing_input_no_calls (ik ok : String) (rsd : Bool)
    (f : String → List Document) (g : List Document → String → String)
    (inputs : List (String × String))
    (h : dictGet inputs ik = none) :
    BaseRetrievalQA.callM ⟨countingCombine g, ik, ok, rsd⟩ (countingGetDocs f)
        inputs (0, 0)
      = (.error (.keyError ik), (0, 0)) := by
  simp [BaseRetrievalQA.callM, h]

/-- C5 witness: an input mapping without the `"query"` key. -/
theorem c5_missing_input_no_calls_witness :
    dictGet [("other", "x")] "query" = none
    ∧ BaseRetrievalQA.callM
        ⟨countingCombine (fun _ _ => ""), "query", "result", false⟩
        (countingGetDocs (fun _ => [])) [("other", "x")] (0, 0)
      = (.error (.keyError "query"), (0, 0)) :=
  ⟨rfl,
   c5_missing_input_no_calls "query" "result" false (fun _ => []) (fun _ _ => "")
     [("other", "x")] rfl⟩

/-- C9.  Invariant: every successful `_call` returns a mapping whose key
sequence equals the declared `output_keys` — `[output_key]` when
`return_source_documents` is false, `[output_key, "source_documents"]` when
it is true. -/
theorem c9_output_schema_invariant {σ : Type} (b : BaseRetrievalQA σ)
    (gd : String → σ → Except QAError (List Document) × σ)
    (inputs : List (String × String)) (s : σ) (out : Output) (s' : σ)
    (h : BaseRetrievalQA.callM b gd inputs s = (.ok out, s')) :
    out.map Prod.fst = b.output_keys := by
  cases hq : dictGet inputs b.input_key with
  | none => simp only [BaseRetrievalQA.callM, hq] at h; exact absurd h (by simp)
  | some q =>
    simp only [BaseRetrievalQA.callM, hq] at h
    rcases hd : gd q s with ⟨e, s₁⟩
    simp only [hd] at h
    cases e with
    | error err => simp at h
    | ok docs =>
      cases hr : b.return_source_documents with
      | false =>
        simp only [hr, Bool.false_eq_true, if_false, Prod.mk.injEq] at h
        obtain ⟨h1, -⟩ := h
        injection h1 with h1
        rw [← h1]
        simp [BaseRetrievalQA.output_keys, hr]
      | true =>
        simp only [hr, if_true, Prod.mk.injEq] at h
        obtain ⟨h1, -⟩ := h
        injection h1 with h1
        rw [← h1]
        simp [BaseRetrievalQA.output_keys, hr]

/-- C9 witness: a successful call with `return_source_documents = true`. -/
theorem c9_output_schema_invariant_witness :
    BaseRetrievalQA.callM ⟨unitCombine, "query", "result", true⟩
        (fun _ s => (.ok [docA], s)) [("query", "hi")] ()
      = (.ok [("result", Value.str ""), ("source_documents", Value.docs [docA])], ())
    ∧ ([("result", Value.str ""), ("source_documents", Value.docs [docA])].map
          Prod.fst
        = BaseRetrievalQA.output_keys ⟨unitCombine, "query", "result", true⟩) :=
  ⟨rfl,
   c9_output_schema_invariant ⟨unitCombine, "query", "result", true⟩
     (fun _ s => (.ok [docA], s)) [("query", "hi")] ()
     [("result", Value.str ""), ("source_documents", Value.docs [docA])] () rfl⟩

end RetrievalQASpec
